import Mathlib

/-!
Verification of the Empress memory-ceiling guard (src/empress.hpp,
src/example.cpp) against its specification.

The program is a single sequential protocol: `empress::protection::enable`
resolves three NT API entry points, creates a job object, assigns the
current process to it and writes an extended-limit-information record
imposing a 4096-byte process memory ceiling. Each OS primitive call is
modelled by its observable result: symbol resolution yields null or
non-null (a `Bool`), and each NTSTATUS-returning call yields a signed
status code (an `Int`). `enable` becomes a pure function of that
environment, producing the returned boolean together with the trace of
log-sink calls, which primitives were invoked, whether the job handle
was created, how many times `CloseHandle` ran on it, and the exact
arguments of the `NtSetInformationJobObject` call.
-/

namespace Empress

/-- `empress::logging::log_level` (src/empress.hpp lines 33-37). -/
inductive LogLevel where
  | info
  | warning
  | error
deriving DecidableEq, Repr

/-- The severity tag chosen by the `switch` in `empress::logging::log`
(src/empress.hpp lines 49-55): the local starts as `""` and each case
overwrites it. -/
def levelTag : LogLevel → String
  | LogLevel.info => "[INFO] "
  | LogLevel.warning => "[WARN] "
  | LogLevel.error => "[ERROR] "

/-- `empress::logging::log` (src/empress.hpp lines 47-58): streams the
severity tag, then the formatted message, then `std::endl`. Every call
site in the repository passes a format string with no arguments, so the
formatted message is the format string itself. The return value is the
text emitted to the console stream by this one call. -/
def log (level : LogLevel) (msg : String) : String :=
  levelTag level ++ msg ++ "\n"

/-- The `NT_SUCCESS` macro (src/empress.hpp line 70):
`(((NTSTATUS)(Status)) >= 0)` on the signed 32-bit status. -/
def NT_SUCCESS (status : Int) : Bool :=
  decide (0 ≤ status)

/-- `IO_COUNTERS` as embedded inside
`JOBOBJECT_EXTENDED_LIMIT_INFORMATION`; `limits = {}` zero-initialises
every field. -/
structure IO_COUNTERS where
  ReadOperationCount : Nat
  WriteOperationCount : Nat
  OtherOperationCount : Nat
  ReadTransferCount : Nat
  WriteTransferCount : Nat
  OtherTransferCount : Nat
deriving DecidableEq, Repr

/-- `JOBOBJECT_BASIC_LIMIT_INFORMATION` from the Windows headers, the
first member of the extended record. -/
structure JOBOBJECT_BASIC_LIMIT_INFORMATION where
  PerProcessUserTimeLimit : Int
  PerJobUserTimeLimit : Int
  LimitFlags : Nat
  MinimumWorkingSetSize : Nat
  MaximumWorkingSetSize : Nat
  ActiveProcessLimit : Nat
  Affinity : Nat
  PriorityClass : Nat
  SchedulingClass : Nat
deriving DecidableEq, Repr

/-- `JOBOBJECT_EXTENDED_LIMIT_INFORMATION` from the Windows headers:
the record type of the local `limits` in `enable`. -/
structure JOBOBJECT_EXTENDED_LIMIT_INFORMATION where
  BasicLimitInformation : JOBOBJECT_BASIC_LIMIT_INFORMATION
  IoInfo : IO_COUNTERS
  ProcessMemoryLimit : Nat
  JobMemoryLimit : Nat
  PeakProcessMemoryUsed : Nat
  PeakJobMemoryUsed : Nat
deriving DecidableEq, Repr

/-- The all-zero `IO_COUNTERS` produced by `= {}`. -/
def zeroIoCounters : IO_COUNTERS :=
  ⟨0, 0, 0, 0, 0, 0⟩

/-- The all-zero basic record produced by `= {}`. -/
def zeroBasicLimits : JOBOBJECT_BASIC_LIMIT_INFORMATION :=
  ⟨0, 0, 0, 0, 0, 0, 0, 0, 0⟩

/-- The all-zero extended record produced by
`JOBOBJECT_EXTENDED_LIMIT_INFORMATION limits = {};`
(src/empress.hpp line 135). -/
def zeroExtendedLimits : JOBOBJECT_EXTENDED_LIMIT_INFORMATION :=
  ⟨zeroBasicLimits, zeroIoCounters, 0, 0, 0, 0⟩

/-- The `JOB_OBJECT_LIMIT_PROCESS_MEMORY` flag from the Windows headers
(value 0x100). -/
def JOB_OBJECT_LIMIT_PROCESS_MEMORY : Nat := 0x100

/-- The `JobObjectExtendedLimitInformation` member of
`JOBOBJECTINFOCLASS` (value 9 in the Windows headers). -/
def JobObjectExtendedLimitInformation : Nat := 9

/-- `sizeof(JOBOBJECT_EXTENDED_LIMIT_INFORMATION)` on the 64-bit
Windows ABI: 64 (basic record, with padding) + 48 (IO_COUNTERS) +
4 × 8 (the four trailing SIZE_T fields) = 144 bytes. -/
def sizeofExtendedLimitInformation : Nat := 144

/-- The `limits` record as built by src/empress.hpp lines 135-137:
zero-initialised, then `ProcessMemoryLimit = 0x1000` and
`BasicLimitInformation.LimitFlags = JOB_OBJECT_LIMIT_PROCESS_MEMORY`. -/
def jobLimitsRecord : JOBOBJECT_EXTENDED_LIMIT_INFORMATION :=
  { zeroExtendedLimits with
      ProcessMemoryLimit := 0x1000,
      BasicLimitInformation :=
        { zeroBasicLimits with LimitFlags := JOB_OBJECT_LIMIT_PROCESS_MEMORY } }

/-- The argument triple of an `NtSetInformationJobObject` call
(information class, record written, byte length passed). -/
structure SetInfoCall where
  infoClass : Nat
  record : JOBOBJECT_EXTENDED_LIMIT_INFORMATION
  length : Nat
deriving DecidableEq, Repr

/-- The OS-primitive environment a run of `enable` observes: whether
each of the three `GetProcAddress` lookups returned a non-null pointer,
and the NTSTATUS each primitive call would return if invoked. -/
structure Env where
  ntCreateResolved : Bool
  ntAssignResolved : Bool
  ntSetInfoResolved : Bool
  createStatus : Int
  assignStatus : Int
  setInfoStatus : Int
deriving DecidableEq, Repr

/-- Everything observable about one run of `enable`: the returned
boolean, the log-sink calls in order, which primitives were invoked,
whether the job handle was successfully created, how many times
`CloseHandle` ran on it, and the `NtSetInformationJobObject` arguments
when that call happened. -/
structure EnableResult where
  ret : Bool
  logs : List (LogLevel × String)
  createInvoked : Bool
  assignInvoked : Bool
  setInfoInvoked : Bool
  handleCreated : Bool
  closeCount : Nat
  setInfoCall : Option SetInfoCall
deriving DecidableEq, Repr

/-- `empress::protection::enable` (src/empress.hpp lines 106-154),
branch for branch. The null check on the three resolved pointers is
line 111; the three `NT_SUCCESS` checks are lines 120, 128 and 146;
`CloseHandle(job)` runs only on the two late-failure paths (lines 129
and 147); the success path logs and returns without closing. -/
def enable (env : Env) : EnableResult :=
  if !(env.ntCreateResolved && env.ntAssignResolved && env.ntSetInfoResolved) then
    { ret := false,
      logs := [(LogLevel.error, "Failed to get NT API functions")],
      createInvoked := false, assignInvoked := false, setInfoInvoked := false,
      handleCreated := false, closeCount := 0, setInfoCall := none }
  else if !(NT_SUCCESS env.createStatus) then
    { ret := false,
      logs := [(LogLevel.error, "Failed to create job object")],
      createInvoked := true, assignInvoked := false, setInfoInvoked := false,
      handleCreated := false, closeCount := 0, setInfoCall := none }
  else if !(NT_SUCCESS env.assignStatus) then
    { ret := false,
      logs := [(LogLevel.error, "Failed to assign process to job")],
      createInvoked := true, assignInvoked := true, setInfoInvoked := false,
      handleCreated := true, closeCount := 1, setInfoCall := none }
  else if !(NT_SUCCESS env.setInfoStatus) then
    { ret := false,
      logs := [(LogLevel.error, "Failed to set job limits")],
      createInvoked := true, assignInvoked := true, setInfoInvoked := true,
      handleCreated := true, closeCount := 1,
      setInfoCall := some ⟨JobObjectExtendedLimitInformation, jobLimitsRecord,
        sizeofExtendedLimitInformation⟩ }
  else
    { ret := true,
      logs := [(LogLevel.info, "Memory protection active")],
      createInvoked := true, assignInvoked := true, setInfoInvoked := true,
      handleCreated := true, closeCount := 0,
      setInfoCall := some ⟨JobObjectExtendedLimitInformation, jobLimitsRecord,
        sizeofExtendedLimitInformation⟩ }

/-- The one extra outcome line `enable_protection` (src/example.cpp
lines 5-9) logs after `enable` returns. -/
def enableProtectionLine (env : Env) : LogLevel × String :=
  if (enable env).ret then
    (LogLevel.info, "Protection active!")
  else
    (LogLevel.error, "Failed to set protection!")

/-- The full sequence of log-sink calls made by a run of `main`
(src/example.cpp lines 11-16): the lines `enable` itself emits, then
the outcome line from `enable_protection`, then the prompt line. -/
def programLogs (env : Env) : List (LogLevel × String) :=
  (enable env).logs ++
    [enableProtectionLine env, (LogLevel.info, "Press ENTER to close program.")]

/-! ## Helper lemmas: one equation per branch of `enable` -/

lemma NT_SUCCESS_of_nonneg {s : Int} (h : 0 ≤ s) : NT_SUCCESS s = true := by
  simp [NT_SUCCESS, h]

lemma NT_SUCCESS_of_neg {s : Int} (h : s < 0) : NT_SUCCESS s = false := by
  simp [NT_SUCCESS, not_le.mpr h]

lemma enable_of_unresolved (env : Env)
    (h : (env.ntCreateResolved && env.ntAssignResolved && env.ntSetInfoResolved) = false) :
    enable env =
      { ret := false,
        logs := [(LogLevel.error, "Failed to get NT API functions")],
        createInvoked := false, assignInvoked := false, setInfoInvoked := false,
        handleCreated := false, closeCount := 0, setInfoCall := none } := by
  simp [enable, h]

lemma enable_of_createFail (env : Env)
    (h : (env.ntCreateResolved && env.ntAssignResolved && env.ntSetInfoResolved) = true)
    (hc : env.createStatus < 0) :
    enable env =
      { ret := false,
        logs := [(LogLevel.error, "Failed to create job object")],
        createInvoked := true, assignInvoked := false, setInfoInvoked := false,
        handleCreated := false, closeCount := 0, setInfoCall := none } := by
  simp [enable, h, NT_SUCCESS_of_neg hc]

lemma enable_of_assignFail (env : Env)
    (h : (env.ntCreateResolved && env.ntAssignResolved && env.ntSetInfoResolved) = true)
    (hc : 0 ≤ env.createStatus) (ha : env.assignStatus < 0) :
    enable env =
      { ret := false,
        logs := [(LogLevel.error, "Failed to assign process to job")],
        createInvoked := true, assignInvoked := true, setInfoInvoked := false,
        handleCreated := true, closeCount := 1, setInfoCall := none } := by
  simp [enable, h, NT_SUCCESS_of_nonneg hc, NT_SUCCESS_of_neg ha]

lemma enable_of_setFail (env : Env)
    (h : (env.ntCreateResolved && env.ntAssignResolved && env.ntSetInfoResolved) = true)
    (hc : 0 ≤ env.createStatus) (ha : 0 ≤ env.assignStatus)
    (hs : env.setInfoStatus < 0) :
    enable env =
      { ret := false,
        logs := [(LogLevel.error, "Failed to set job limits")],
        createInvoked := true, assignInvoked := true, setInfoInvoked := true,
        handleCreated := true, closeCount := 1,
        setInfoCall := some ⟨JobObjectExtendedLimitInformation, jobLimitsRecord,
          sizeofExtendedLimitInformation⟩ } := by
  simp [enable, h, NT_SUCCESS_of_nonneg hc, NT_SUCCESS_of_nonneg ha,
    NT_SUCCESS_of_neg hs]

lemma enable_of_allOk (env : Env)
    (h : (env.ntCreateResolved && env.ntAssignResolved && env.ntSetInfoResolved) = true)
    (hc : 0 ≤ env.createStatus) (ha : 0 ≤ env.assignStatus)
    (hs : 0 ≤ env.setInfoStatus) :
    enable env =
      { ret := true,
        logs := [(LogLevel.info, "Memory protection active")],
        createInvoked := true, assignInvoked := true, setInfoInvoked := true,
        handleCreated := true, closeCount := 0,
        setInfoCall := some ⟨JobObjectExtendedLimitInformation, jobLimitsRecord,
          sizeofExtendedLimitInformation⟩ } := by
  simp [enable, h, NT_SUCCESS_of_nonneg hc, NT_SUCCESS_of_nonneg ha,
    NT_SUCCESS_of_nonneg hs]

/-- Case principle for a run of `enable`: exactly one of the five
branch equations applies. -/
lemma enable_cases (env : Env) (motive : Prop)
    (h₁ : (env.ntCreateResolved && env.ntAssignResolved && env.ntSetInfoResolved) = false →
      motive)
    (h₂ : (env.ntCreateResolved && env.ntAssignResolved && env.ntSetInfoResolved) = true →
      env.createStatus < 0 → motive)
    (h₃ : (env.ntCreateResolved && env.ntAssignResolved && env.ntSetInfoResolved) = true →
      0 ≤ env.createStatus → env.assignStatus < 0 → motive)
    (h₄ : (env.ntCreateResolved && env.ntAssignResolved && env.ntSetInfoResolved) = true →
      0 ≤ env.createStatus → 0 ≤ env.assignStatus → env.setInfoStatus < 0 → motive)
    (h₅ : (env.ntCreateResolved && env.ntAssignResolved && env.ntSetInfoResolved) = true →
      0 ≤ env.createStatus → 0 ≤ env.assignStatus → 0 ≤ env.setInfoStatus → motive) :
    motive := by
  rcases Bool.eq_false_or_eq_true
      (env.ntCreateResolved && env.ntAssignResolved && env.ntSetInfoResolved) with hres | hres
  · rcases lt_or_le env.createStatus 0 with hc | hc
    · exact h₂ hres hc
    · rcases lt_or_le env.assignStatus 0 with ha | ha
      · exact h₃ hres hc ha
      · rcases lt_or_le env.setInfoStatus 0 with hs | hs
        · exact h₄ hres hc ha hs
        · exact h₅ hres hc ha hs
  · exact h₁ hres

/-! ## Claim theorems -/

/-- C1, counterexample: on the all-success run the job handle is
successfully created, yet `enable` returns (with `true`) without ever
calling `CloseHandle` on it — the success path skips the close, so the
handle is not closed on every exit path. -/
theorem enable_success_path_leaves_handle_open :
    (enable ⟨true, true, true, 0, 0, 0⟩).handleCreated = true ∧
      (enable ⟨true, true, true, 0, 0, 0⟩).ret = true ∧
      (enable ⟨true, true, true, 0, 0, 0⟩).closeCount = 0 :=
  ⟨rfl, rfl, rfl⟩

/-- C1, amended: in every execution of `enable` in which the container
handle was successfully created, the handle is closed exactly once
before `enable` returns on every failure exit path; on the success path
the handle is not closed (the job's limiting effect persists
regardless). -/
theorem enable_handle_close_discipline (env : Env)
    (hcreated : (enable env).handleCreated = true) :
    ((enable env).ret = false → (enable env).closeCount = 1) ∧
      ((enable env).ret = true → (enable env).closeCount = 0) := by
  refine enable_cases env _ ?_ ?_ ?_ ?_ ?_
  · intro hres
    rw [enable_of_unresolved env hres] at hcreated
    simp at hcreated
  · intro hres hc
    rw [enable_of_createFail env hres hc] at hcreated
    simp at hcreated
  · intro hres hc ha
    rw [enable_of_assignFail env hres hc ha]
    exact ⟨fun _ => rfl, fun hh => by simp at hh⟩
  · intro hres hc ha hs
    rw [enable_of_setFail env hres hc ha hs]
    exact ⟨fun _ => rfl, fun hh => by simp at hh⟩
  · intro hres hc ha hs
    rw [enable_of_allOk env hres hc ha hs]
    exact ⟨fun hh => by simp at hh, fun _ => rfl⟩

/-- C1, witness for the amended theorem: a run whose limit-setting call
fails closes the handle exactly once. -/
theorem enable_handle_close_discipline_witness :
    (enable ⟨true, true, true, 0, 0, -1⟩).closeCount = 1 :=
  (enable_handle_close_discipline ⟨true, true, true, 0, 0, -1⟩ (by decide)).1 (by decide)

/-- C2: `enable` returns `true` exactly when all four steps succeed:
the three NT API lookups are non-null and the job-creation,
process-assignment and limit-setting calls each return a non-negative
status; any failure yields `false`. -/
theorem enable_ret_true_iff_all_steps_succeed (env : Env) :
    (enable env).ret = true ↔
      (env.ntCreateResolved = true ∧ env.ntAssignResolved = true ∧
        env.ntSetInfoResolved = true ∧ 0 ≤ env.createStatus ∧
        0 ≤ env.assignStatus ∧ 0 ≤ env.setInfoStatus) := by
  refine enable_cases env _ ?_ ?_ ?_ ?_ ?_
  · intro hres
    rw [enable_of_unresolved env hres]
    constructor
    · intro hh; simp at hh
    · rintro ⟨h1, h2, h3, -⟩
      rw [h1, h2, h3] at hres
      simp at hres
  · intro hres hc
    rw [enable_of_createFail env hres hc]
    constructor
    · intro hh; simp at hh
    · rintro ⟨-, -, -, hc2, -, -⟩
      exact absurd hc (not_lt.mpr hc2)
  · intro hres hc ha
    rw [enable_of_assignFail env hres hc ha]
    constructor
    · intro hh; simp at hh
    · rintro ⟨-, -, -, -, ha2, -⟩
      exact absurd ha (not_lt.mpr ha2)
  · intro hres hc ha hs
    rw [enable_of_setFail env hres hc ha hs]
    constructor
    · intro hh; simp at hh
    · rintro ⟨-, -, -, -, -, hs2⟩
      exact absurd hs (not_lt.mpr hs2)
  · intro hres hc ha hs
    rw [enable_of_allOk env hres hc ha hs]
    rw [Bool.and_eq_true, Bool.and_eq_true] at hres
    exact ⟨fun _ => ⟨hres.1.1, hres.1.2, hres.2, hc, ha, hs⟩, fun _ => rfl⟩

/-- C3: when at least one of the three symbol lookups returns null,
`enable` logs "Failed to get NT API functions" at error severity,
returns `false`, and never invokes the container-creation primitive nor
any later primitive — no container is created. -/
theorem enable_fail_fast_on_unresolved (env : Env)
    (h : env.ntCreateResolved = false ∨ env.ntAssignResolved = false ∨
      env.ntSetInfoResolved = false) :
    (enable env).ret = false ∧
      (enable env).logs = [(LogLevel.error, "Failed to get NT API functions")] ∧
      (enable env).createInvoked = false ∧
      (enable env).assignInvoked = false ∧
      (enable env).setInfoInvoked = false ∧
      (enable env).handleCreated = false := by
  have hres :
      (env.ntCreateResolved && env.ntAssignResolved && env.ntSetInfoResolved) = false := by
    rcases h with h | h | h <;> simp [h]
  rw [enable_of_unresolved env hres]
  exact ⟨rfl, rfl, rfl, rfl, rfl, rfl⟩

/-- C3, witness: with the container-creation lookup unresolved,
`enable` fails fast without invoking any primitive. -/
theorem enable_fail_fast_on_unresolved_witness :
    (enable ⟨false, true, true, 0, 0, 0⟩).ret = false ∧
      (enable ⟨false, true, true, 0, 0, 0⟩).logs =
        [(LogLevel.error, "Failed to get NT API functions")] ∧
      (enable ⟨false, true, true, 0, 0, 0⟩).createInvoked = false ∧
      (enable ⟨false, true, true, 0, 0, 0⟩).assignInvoked = false ∧
      (enable ⟨false, true, true, 0, 0, 0⟩).setInfoInvoked = false ∧
      (enable ⟨false, true, true, 0, 0, 0⟩).handleCreated = false :=
  enable_fail_fast_on_unresolved ⟨false, true, true, 0, 0, 0⟩ (Or.inl rfl)

/-- C4: in every execution where the container handle was created and
the process-assignment call or the limit-setting call returns a
negative status, the handle is closed exactly once and `enable` returns
`false`; when the assignment fails, the single log line is
"Failed to assign process to job" at error severity. -/
theorem enable_closes_handle_once_on_late_failure (env : Env)
    (hcreated : (enable env).handleCreated = true)
    (hfail : env.assignStatus < 0 ∨ env.setInfoStatus < 0) :
    (enable env).closeCount = 1 ∧ (enable env).ret = false ∧
      (env.assignStatus < 0 →
        (enable env).logs = [(LogLevel.error, "Failed to assign process to job")]) := by
  refine enable_cases env _ ?_ ?_ ?_ ?_ ?_
  · intro hres
    rw [enable_of_unresolved env hres] at hcreated
    simp at hcreated
  · intro hres hc
    rw [enable_of_createFail env hres hc] at hcreated
    simp at hcreated
  · intro hres hc ha
    rw [enable_of_assignFail env hres hc ha]
    exact ⟨rfl, rfl, fun _ => rfl⟩
  · intro hres hc ha hs
    rw [enable_of_setFail env hres hc ha hs]
    exact ⟨rfl, rfl, fun ha2 => absurd ha2 (not_lt.mpr ha)⟩
  · intro hres hc ha hs
    rcases hfail with hf | hf
    · exact absurd hf (not_lt.mpr ha)
    · exact absurd hf (not_lt.mpr hs)

/-- C4, witness: a run whose assignment call returns -1 closes the
handle once, fails, and logs the assignment error. -/
theorem enable_closes_handle_once_on_late_failure_witness :
    (enable ⟨true, true, true, 0, -1, 0⟩).closeCount = 1 ∧
      (enable ⟨true, true, true, 0, -1, 0⟩).ret = false ∧
      ((-1 : Int) < 0 →
        (enable ⟨true, true, true, 0, -1, 0⟩).logs =
          [(LogLevel.error, "Failed to assign process to job")]) :=
  enable_closes_handle_once_on_late_failure ⟨true, true, true, 0, -1, 0⟩ rfl
    (Or.inl (by decide))

/-- C5: on every successful run, the record written by the
limit-setting call carries a process memory ceiling of exactly 4096
bytes with `JOB_OBJECT_LIMIT_PROCESS_MEMORY` as the only active limit
flag, every other limit field zero, and the call passes the
extended-limit-information class together with the record's exact byte
size. -/
theorem enable_success_limit_record (env : Env)
    (h : (enable env).ret = true) :
    (enable env).setInfoCall =
      some ⟨JobObjectExtendedLimitInformation, jobLimitsRecord,
        sizeofExtendedLimitInformation⟩ ∧
      jobLimitsRecord.ProcessMemoryLimit = 4096 ∧
      jobLimitsRecord.BasicLimitInformation.LimitFlags =
        JOB_OBJECT_LIMIT_PROCESS_MEMORY ∧
      jobLimitsRecord.BasicLimitInformation.PerProcessUserTimeLimit = 0 ∧
      jobLimitsRecord.BasicLimitInformation.PerJobUserTimeLimit = 0 ∧
      jobLimitsRecord.BasicLimitInformation.MinimumWorkingSetSize = 0 ∧
      jobLimitsRecord.BasicLimitInformation.MaximumWorkingSetSize = 0 ∧
      jobLimitsRecord.BasicLimitInformation.ActiveProcessLimit = 0 ∧
      jobLimitsRecord.BasicLimitInformation.Affinity = 0 ∧
      jobLimitsRecord.BasicLimitInformation.PriorityClass = 0 ∧
      jobLimitsRecord.BasicLimitInformation.SchedulingClass = 0 ∧
      jobLimitsRecord.IoInfo = zeroIoCounters ∧
      jobLimitsRecord.JobMemoryLimit = 0 ∧
      jobLimitsRecord.PeakProcessMemoryUsed = 0 ∧
      jobLimitsRecord.PeakJobMemoryUsed = 0 := by
  refine ⟨?_, rfl, rfl, rfl, rfl, rfl, rfl, rfl, rfl, rfl, rfl, rfl, rfl, rfl, rfl⟩
  refine enable_cases env _ ?_ ?_ ?_ ?_ ?_
  · intro hres
    rw [enable_of_unresolved env hres] at h
    simp at h
  · intro hres hc
    rw [enable_of_createFail env hres hc] at h
    simp at h
  · intro hres hc ha
    rw [enable_of_assignFail env hres hc ha] at h
    simp at h
  · intro hres hc ha hs
    rw [enable_of_setFail env hres hc ha hs] at h
    simp at h
  · intro hres hc ha hs
    rw [enable_of_allOk env hres hc ha hs]

/-- C5, witness: the all-success run writes exactly that record. -/
theorem enable_success_limit_record_witness :
    (enable ⟨true, true, true, 0, 0, 0⟩).setInfoCall =
      some ⟨JobObjectExtendedLimitInformation, jobLimitsRecord,
        sizeofExtendedLimitInformation⟩ :=
  (enable_success_limit_record ⟨true, true, true, 0, 0, 0⟩ rfl).1

/-- C6: each primitive call is treated as successful exactly when its
signed status is non-negative — `NT_SUCCESS` holds iff `0 ≤ status` —
and `enable` makes no finer distinction among status values: two
environments whose lookups agree and whose statuses agree in sign
produce identical runs. -/
theorem enable_status_sign_boundary (env env₂ : Env)
    (hres : env.ntCreateResolved = env₂.ntCreateResolved ∧
      env.ntAssignResolved = env₂.ntAssignResolved ∧
      env.ntSetInfoResolved = env₂.ntSetInfoResolved)
    (hsign : (0 ≤ env.createStatus ↔ 0 ≤ env₂.createStatus) ∧
      (0 ≤ env.assignStatus ↔ 0 ≤ env₂.assignStatus) ∧
      (0 ≤ env.setInfoStatus ↔ 0 ≤ env₂.setInfoStatus)) :
    (∀ s : Int, NT_SUCCESS s = true ↔ 0 ≤ s) ∧ enable env = enable env₂ := by
  constructor
  · intro s
    simp [NT_SUCCESS]
  · have e₁ : NT_SUCCESS env.createStatus = NT_SUCCESS env₂.createStatus := by
      unfold NT_SUCCESS
      exact decide_eq_decide.mpr hsign.1
    have e₂ : NT_SUCCESS env.assignStatus = NT_SUCCESS env₂.assignStatus := by
      unfold NT_SUCCESS
      exact decide_eq_decide.mpr hsign.2.1
    have e₃ : NT_SUCCESS env.setInfoStatus = NT_SUCCESS env₂.setInfoStatus := by
      unfold NT_SUCCESS
      exact decide_eq_decide.mpr hsign.2.2
    unfold enable
    rw [hres.1, hres.2.1, hres.2.2, e₁, e₂, e₃]

/-- C6, witness: a zero status and positive (informational-style)
statuses are indistinguishable to `enable`. -/
theorem enable_status_sign_boundary_witness :
    (∀ s : Int, NT_SUCCESS s = true ↔ 0 ≤ s) ∧
      enable ⟨true, true, true, 0, 0, 0⟩ = enable ⟨true, true, true, 1, 5, 259⟩ :=
  enable_status_sign_boundary ⟨true, true, true, 0, 0, 0⟩ ⟨true, true, true, 1, 5, 259⟩
    ⟨rfl, rfl, rfl⟩ (by decide)

/-- C7: every terminal outcome of `enable` emits exactly one log line;
the run succeeds exactly when that line is the info-severity
"Memory protection active", and a failing run's single line is the
error-severity message of the step that failed. -/
theorem enable_logs_one_line_per_outcome (env : Env) :
    (enable env).logs.length = 1 ∧
      ((enable env).ret = true ↔
        (enable env).logs = [(LogLevel.info, "Memory protection active")]) ∧
      ((env.ntCreateResolved && env.ntAssignResolved && env.ntSetInfoResolved) = false →
        (enable env).logs = [(LogLevel.error, "Failed to get NT API functions")]) ∧
      ((env.ntCreateResolved && env.ntAssignResolved && env.ntSetInfoResolved) = true →
        env.createStatus < 0 →
        (enable env).logs = [(LogLevel.error, "Failed to create job object")]) ∧
      ((env.ntCreateResolved && env.ntAssignResolved && env.ntSetInfoResolved) = true →
        0 ≤ env.createStatus → env.assignStatus < 0 →
        (enable env).logs = [(LogLevel.error, "Failed to assign process to job")]) ∧
      ((env.ntCreateResolved && env.ntAssignResolved && env.ntSetInfoResolved) = true →
        0 ≤ env.createStatus → 0 ≤ env.assignStatus → env.setInfoStatus < 0 →
        (enable env).logs = [(LogLevel.error, "Failed to set job limits")]) := by
  refine enable_cases env _ ?_ ?_ ?_ ?_ ?_
  · intro hres
    rw [enable_of_unresolved env hres]
    refine ⟨rfl, by simp, fun _ => rfl, ?_, ?_, ?_⟩
    · intro hh
      rw [hh] at hres
      simp at hres
    · intro hh
      rw [hh] at hres
      simp at hres
    · intro hh
      rw [hh] at hres
      simp at hres
  · intro hres hc
    rw [enable_of_createFail env hres hc]
    refine ⟨rfl, by simp, ?_, fun _ _ => rfl, ?_, ?_⟩
    · intro hh
      rw [hh] at hres
      simp at hres
    · intro _ hc2 _
      exact absurd hc (not_lt.mpr hc2)
    · intro _ hc2 _ _
      exact absurd hc (not_lt.mpr hc2)
  · intro hres hc ha
    rw [enable_of_assignFail env hres hc ha]
    refine ⟨rfl, by simp, ?_, ?_, fun _ _ _ => rfl, ?_⟩
    · intro hh
      rw [hh] at hres
      simp at hres
    · intro _ hc2
      exact absurd hc2 (not_lt.mpr hc)
    · intro _ _ ha2 _
      exact absurd ha (not_lt.mpr ha2)
  · intro hres hc ha hs
    rw [enable_of_setFail env hres hc ha hs]
    refine ⟨rfl, by simp, ?_, ?_, ?_, fun _ _ _ _ => rfl⟩
    · intro hh
      rw [hh] at hres
      simp at hres
    · intro _ hc2
      exact absurd hc2 (not_lt.mpr hc)
    · intro _ _ ha2
      exact absurd ha2 (not_lt.mpr ha)
  · intro hres hc ha hs
    rw [enable_of_allOk env hres hc ha hs]
    refine ⟨rfl, by simp, ?_, ?_, ?_, ?_⟩
    · intro hh
      rw [hh] at hres
      simp at hres
    · intro _ hc2
      exact absurd hc2 (not_lt.mpr hc)
    · intro _ _ ha2
      exact absurd ha2 (not_lt.mpr ha)
    · intro _ _ _ hs2
      exact absurd hs2 (not_lt.mpr hs)

/-- C7, witness: a run whose creation call returns -1 logs exactly the
creation error line. -/
theorem enable_logs_one_line_per_outcome_witness :
    (enable ⟨true, true, true, -1, 0, 0⟩).logs =
      [(LogLevel.error, "Failed to create job object")] :=
  (enable_logs_one_line_per_outcome ⟨true, true, true, -1, 0, 0⟩).2.2.2.1 rfl (by decide)

/-- C8: each call of the logging helper emits the severity tag,
the formatted message and a newline — "[INFO] " for info, "[WARN] "
for warning, "[ERROR] " for error — and (for a newline-free message)
the emitted text is exactly one line. -/
theorem log_line_format (level : LogLevel) (msg : String) :
    log LogLevel.info msg = "[INFO] " ++ msg ++ "\n" ∧
      log LogLevel.warning msg = "[WARN] " ++ msg ++ "\n" ∧
      log LogLevel.error msg = "[ERROR] " ++ msg ++ "\n" ∧
      (msg.data.count '\n' = 0 → (log level msg).data.count '\n' = 1) := by
  refine ⟨rfl, rfl, rfl, ?_⟩
  intro h
  have hdata : (log level msg).data =
      (levelTag level).data ++ msg.data ++ ['\n'] := by
    show ((levelTag level ++ msg) ++ "\n").data = _
    rw [String.data_append, String.data_append]
  have htag : ((levelTag level).data.count '\n') = 0 := by
    cases level <;> decide
  rw [hdata, List.count_append, List.count_append, h, htag]
  decide

/-- C8, witness: the success line is emitted as one info-tagged line. -/
theorem log_line_format_witness :
    log LogLevel.info "Memory protection active" =
      "[INFO] " ++ "Memory protection active" ++ "\n" ∧
      (log LogLevel.info "Memory protection active").data.count '\n' = 1 :=
  ⟨(log_line_format LogLevel.info "Memory protection active").1,
    (log_line_format LogLevel.info "Memory protection active").2.2.2 (by decide)⟩

/-- C9: `enable` is deterministic in its OS-primitive environment: two
runs whose three lookups and three status codes agree return the same
boolean and emit the same log lines (indeed produce identical runs). -/
theorem enable_deterministic (e₁ e₂ : Env)
    (h₁ : e₁.ntCreateResolved = e₂.ntCreateResolved)
    (h₂ : e₁.ntAssignResolved = e₂.ntAssignResolved)
    (h₃ : e₁.ntSetInfoResolved = e₂.ntSetInfoResolved)
    (h₄ : e₁.createStatus = e₂.createStatus)
    (h₅ : e₁.assignStatus = e₂.assignStatus)
    (h₆ : e₁.setInfoStatus = e₂.setInfoStatus) :
    (enable e₁).ret = (enable e₂).ret ∧
      (enable e₁).logs = (enable e₂).logs ∧
      enable e₁ = enable e₂ := by
  have he : e₁ = e₂ := by
    cases e₁
    cases e₂
    simp_all
  subst he
  exact ⟨rfl, rfl, rfl⟩

/-- C9, witness: two syntactically separate but equal environments
yield the same run. -/
theorem enable_deterministic_witness :
    (enable ⟨true, true, true, 3, 4, 5⟩).ret = (enable ⟨true, true, true, 3, 4, 5⟩).ret ∧
      (enable ⟨true, true, true, 3, 4, 5⟩).logs = (enable ⟨true, true, true, 3, 4, 5⟩).logs ∧
      enable ⟨true, true, true, 3, 4, 5⟩ = enable ⟨true, true, true, 3, 4, 5⟩ :=
  enable_deterministic ⟨true, true, true, 3, 4, 5⟩ ⟨true, true, true, 3, 4, 5⟩
    rfl rfl rfl rfl rfl rfl

/-- C10: the demonstration entry point logs a second outcome line after
`enable` returns — info "Protection active!" on `true`, error
"Failed to set protection!" on `false` — so a full run emits exactly
two severity-tagged protection-outcome lines before the "Press ENTER"
prompt line. -/
theorem program_logs_two_outcome_lines (env : Env) :
    (programLogs env).length = 3 ∧
      (∃ firstLine,
        programLogs env =
          [firstLine,
            (if (enable env).ret then (LogLevel.info, "Protection active!")
              else (LogLevel.error, "Failed to set protection!")),
            (LogLevel.info, "Press ENTER to close program.")]) ∧
      ((enable env).ret = true →
        programLogs env =
          [(LogLevel.info, "Memory protection active"),
            (LogLevel.info, "Protection active!"),
            (LogLevel.info, "Press ENTER to close program.")]) := by
  refine enable_cases env _ ?_ ?_ ?_ ?_ ?_
  · intro hres
    rw [programLogs, enableProtectionLine, enable_of_unresolved env hres]
    exact ⟨rfl, ⟨_, rfl⟩, fun hh => by simp at hh⟩
  · intro hres hc
    rw [programLogs, enableProtectionLine, enable_of_createFail env hres hc]
    exact ⟨rfl, ⟨_, rfl⟩, fun hh => by simp at hh⟩
  · intro hres hc ha
    rw [programLogs, enableProtectionLine, enable_of_assignFail env hres hc ha]
    exact ⟨rfl, ⟨_, rfl⟩, fun hh => by simp at hh⟩
  · intro hres hc ha hs
    rw [programLogs, enableProtectionLine, enable_of_setFail env hres hc ha hs]
    exact ⟨rfl, ⟨_, rfl⟩, fun hh => by simp at hh⟩
  · intro hres hc ha hs
    rw [programLogs, enableProtectionLine, enable_of_allOk env hres hc ha hs]
    exact ⟨rfl, ⟨_, rfl⟩, fun _ => rfl⟩

/-- C10, witness: the all-success program run prints the three lines in
order. -/
theorem program_logs_two_outcome_lines_witness :
    programLogs ⟨true, true, true, 0, 0, 0⟩ =
      [(LogLevel.info, "Memory protection active"),
        (LogLevel.info, "Protection active!"),
        (LogLevel.info, "Press ENTER to close program.")] :=
  (program_logs_two_outcome_lines ⟨true, true, true, 0, 0, 0⟩).2.2 rfl

end Empress
